import Mathlib

/-!
Verification development for the AI Learning Platform backend
(Node/Express + Mongoose). Shallow embedding of the contract-bearing
code: the file-intake layer (multer.config.js), the auth controllers
(auth.controller.js, which contains two concatenated variants of each
handler; the second variant of a handler is suffixed `_v2` here), and
the quiz data model (models/Quiz.js).

Conventions of the embedding:
* the filesystem is the set of existing paths, as a list holding each
  path at most once, relative to the process working directory;
* the user store is the ordered list of persisted user documents;
* a handler is a pure function from (store, disk, request) to
  (response, store, disk); an exogenous Bool argument models the only
  throw site handled by a handler's catch block (the database write);
* HTTP responses are modelled by their status code, success flag and
  message, which is all the failure envelopes carry.
-/

-- ==================== FILE INTAKE (multer.config.js) ====================

/-- The filesystem, as the list of paths that currently exist.
Each path occurs at most once. -/
abbrev Disk := List String

/-- Embedding of fs.existsSync + fs.unlinkSync as used by deleteFile:
returns true and removes the path when it exists, false otherwise.
The try/catch in the source makes the function total (it never raises). -/
def deleteFile (filePath : String) (disk : Disk) : Bool × Disk :=
  if filePath ∈ disk then (true, disk.filter (fun q => !(q == filePath)))
  else (false, disk)

/-- A multer file object: client-supplied original name and declared
content type. -/
structure MulterFile where
  originalname : String
  mimetype : String
deriving DecidableEq

/-- An allow-list: the alternatives of the extension regex
(an unanchored alternation, e.g. /pdf|doc|docx|txt|ppt|pptx/) and the
array of allowed MIME type strings. -/
structure AllowedTypes where
  extensions : List String
  mimeTypes : List String

/-- Checks whether tok is a prefix of hay (character lists). -/
def listPrefix : List Char → List Char → Bool
  | [], _ => true
  | _ :: _, [] => false
  | a :: as, b :: bs => a == b && listPrefix as bs

/-- Checks whether tok occurs as a contiguous substring of hay.
This is what an unanchored JS regex literal token matches. -/
def listSubstr (tok : List Char) : List Char → Bool
  | [] => listPrefix tok []
  | b :: bs => listPrefix tok (b :: bs) || listSubstr tok bs

/-- Embedding of RegExp.test for an unanchored alternation of literal
tokens: the regex matches s iff some alternative occurs somewhere in s. -/
def regexTestAny (toks : List String) (s : String) : Bool :=
  toks.any (fun t => listSubstr t.toList s.toList)

/-- Helper for extname: the suffix of the character list starting at its
last dot, when there is one. -/
def extnameAux : List Char → Option (List Char)
  | [] => none
  | c :: cs =>
    match extnameAux cs with
    | some e => some e
    | none => if c == '.' then some (c :: cs) else none

/-- Embedding of Node's path.extname on a base name: the substring from
the last dot to the end; empty when there is no dot or the only dot
leads the name. -/
def extname (s : String) : String :=
  match s.toList with
  | [] => ""
  | _ :: cs =>
    match extnameAux cs with
    | some e => String.mk e
    | none => ""

/-- Embedding of String.prototype.toLowerCase for the characters that
occur in file extensions. -/
def lowerStr (s : String) : String :=
  String.mk (s.toList.map Char.toLower)

/-- ALLOWED_IMAGE_TYPES from multer.config.js. -/
def ALLOWED_IMAGE_TYPES : AllowedTypes :=
  ⟨["jpeg", "jpg", "png", "gif", "webp"],
   ["image/jpeg", "image/jpg", "image/png", "image/gif", "image/webp"]⟩

/-- ALLOWED_DOCUMENT_TYPES from multer.config.js. -/
def ALLOWED_DOCUMENT_TYPES : AllowedTypes :=
  ⟨["pdf", "doc", "docx", "txt", "ppt", "pptx"],
   ["application/pdf",
    "application/msword",
    "application/vnd.openxmlformats-officedocument.wordprocessingml.document",
    "text/plain",
    "application/vnd.ms-powerpoint",
    "application/vnd.openxmlformats-officedocument.presentationml.presentation"]⟩

/-- FILE_SIZE_LIMITS.profile: 5MB in bytes. -/
def FILE_SIZE_LIMIT_profile : Nat := 5 * 1024 * 1024

/-- FILE_SIZE_LIMITS.document: 50MB in bytes. -/
def FILE_SIZE_LIMIT_document : Nat := 50 * 1024 * 1024

/-- Embedding of validateFileType: the lowercased extension of the
original name must match the extension regex, and the declared MIME
type must be in the allow-list; both must pass. -/
def validateFileType (file : MulterFile) (allowedTypes : AllowedTypes) : Bool :=
  regexTestAny allowedTypes.extensions (lowerStr (extname file.originalname)) &&
  allowedTypes.mimeTypes.contains file.mimetype

/-- Acceptance of a single file at the document upload endpoint: the
multer configuration uploadDocument applies documentFileFilter
(validateFileType against ALLOWED_DOCUMENT_TYPES) and the 50MB
fileSize limit. -/
def documentUploadAccepted (file : MulterFile) (size : Nat) : Bool :=
  validateFileType file ALLOWED_DOCUMENT_TYPES && decide (size ≤ FILE_SIZE_LIMIT_document)

-- ==================== AUTH DATA MODEL ====================

/-- A persisted user document. The password field holds the bcrypt hash.
The id stands for the Mongo ObjectId. -/
structure StoredUser where
  id : Nat
  name : String
  email : String
  password : String
  profileImage : Option String
deriving DecidableEq

/-- An HTTP response envelope, restricted to the fields every failure
envelope carries: status code, success flag and message. -/
structure Response where
  status : Nat
  success : Bool
  message : String
deriving DecidableEq

/-- Model of the bcryptjs library: hashing is one-way tagging of the
plaintext. What matters for the embedding is that compare accepts
exactly the original plaintext (hashing is injective). -/
def bcryptHash (plain : String) : String :=
  "bcrypt$" ++ plain

/-- Model of bcrypt.compare: succeeds exactly when the hash is the hash
of the supplied plaintext. -/
def bcryptCompare (plain hash : String) : Bool :=
  hash == bcryptHash plain

/-- Embedding of User.findOne with an email filter: the first stored
user with that email. -/
def findOneByEmail (store : List StoredUser) (email : String) : Option StoredUser :=
  store.find? (fun u => u.email == email)

/-- Embedding of User.findById. -/
def findById (store : List StoredUser) (id : Nat) : Option StoredUser :=
  store.find? (fun u => u.id == id)

/-- Modelled from the spec: utils/verifyEmail.js is not under src/; per
the spec the duplicate check tests whether a user with the email
already exists, before any write. -/
def verifyEmail (store : List StoredUser) (email : String) : Bool :=
  store.any (fun u => u.email == email)

/-- The path under which a multer profile upload with the given
filename was stored (uploads/profiles, relative to the working
directory). -/
def profilePath (filename : String) : String :=
  "uploads/profiles/" ++ filename

/-- Embedding of cleanupUploadedFile: when the request carried a file,
delete it from uploads/profiles. -/
def cleanupUploadedFile (file : Option String) (disk : Disk) : Disk :=
  match file with
  | none => disk
  | some f => (deleteFile (profilePath f) disk).2

-- ==================== AUTH CONTROLLERS ====================

/-- A registration request: body fields plus the multer file (its
stored filename), already written to disk when the controller runs. -/
structure RegisterRequest where
  name : String
  email : String
  password : String
  file : Option String

/-- Embedding of register (first variant, auth.controller.js lines
55-110). createThrows models User.create throwing, handled by the
catch block. On duplicate email and in the catch block the uploaded
file is cleaned up; on success the stored profileImage is the
uploads/profiles path of the uploaded file, when there is one. -/
def register (store : List StoredUser) (disk : Disk) (r : RegisterRequest)
    (createThrows : Bool) : Response × List StoredUser × Disk :=
  if verifyEmail store r.email then
    (⟨400, false, "Email already registered"⟩, store, cleanupUploadedFile r.file disk)
  else if createThrows then
    (⟨500, false, "User registration failed"⟩, store, cleanupUploadedFile r.file disk)
  else
    (⟨201, true, "User registered successfully"⟩,
     store ++ [⟨store.length, r.name, r.email, bcryptHash r.password, r.file.map profilePath⟩],
     disk)

/-- Embedding of register (second variant, auth.controller.js lines
349-400). This variant never references req.file: no profile image is
stored and no cleanup happens on any path, so the disk is returned
unchanged everywhere. -/
def register_v2 (store : List StoredUser) (disk : Disk) (r : RegisterRequest)
    (createThrows : Bool) : Response × List StoredUser × Disk :=
  if verifyEmail store r.email then
    (⟨400, false, "Email already registered"⟩, store, disk)
  else if createThrows then
    (⟨500, false, "User registration failed"⟩, store, disk)
  else
    (⟨201, true, "User registered successfully"⟩,
     store ++ [⟨store.length, r.name, r.email, bcryptHash r.password, none⟩],
     disk)

/-- A login request body. -/
structure LoginRequest where
  email : String
  password : String

/-- Embedding of login (first variant, auth.controller.js lines
117-160): unknown email and failed hash comparison both yield status
401 with the message Invalid email or password. -/
def login (store : List StoredUser) (r : LoginRequest) : Response :=
  match findOneByEmail store r.email with
  | none => ⟨401, false, "Invalid email or password"⟩
  | some u =>
    if bcryptCompare r.password u.password then
      ⟨200, true, "User logged in successfully"⟩
    else
      ⟨401, false, "Invalid email or password"⟩

/-- Embedding of login (second variant, auth.controller.js lines
405-458): unknown email yields 404 User not found, a failed hash
comparison yields 401 Invalid password. -/
def login_v2 (store : List StoredUser) (r : LoginRequest) : Response :=
  match findOneByEmail store r.email with
  | none => ⟨404, false, "User not found"⟩
  | some u =>
    if bcryptCompare r.password u.password then
      ⟨200, true, "User logged in successfully"⟩
    else
      ⟨401, false, "Invalid password"⟩

/-- The mutable fields a profile-update body can carry that the claims
are about. -/
structure UpdateBody where
  name : Option String
  email : Option String
  password : Option String

/-- A profile-update request: the authenticated user id (from the
token), the body, and the optional replacement image (its stored
multer filename, already written to disk). -/
structure UpdateRequest where
  userId : Nat
  body : UpdateBody
  file : Option String

/-- How findByIdAndUpdate applies the update payload of the first
updateProfile variant: password and email were deleted from the
payload, so only name (and the computed profileImage) are applied. -/
def applyUpdate (u : StoredUser) (name : Option String) (newImage : Option String) :
    StoredUser :=
  { u with
    name := name.getD u.name,
    profileImage :=
      match newImage with
      | some p => some p
      | none => u.profileImage }

/-- Embedding of updateProfile (first variant, auth.controller.js lines
197-252). When the request carries a file, the current user's old
profile image is deleted from disk before the database write; then
findByIdAndUpdate runs (updateThrows models it throwing, e.g. a
validator failure, handled by the catch block which cleans up the new
file); a missing user yields 404 with no cleanup. Stored image paths
are relative to the working directory, matching path.join with
process.cwd in the source. -/
def updateProfile (store : List StoredUser) (disk : Disk) (r : UpdateRequest)
    (updateThrows : Bool) : Response × List StoredUser × Disk :=
  let newImage := r.file.map profilePath
  let disk1 :=
    match r.file with
    | none => disk
    | some _ =>
      match (findById store r.userId).bind (fun u => u.profileImage) with
      | some old => (deleteFile old disk).2
      | none => disk
  if updateThrows then
    (⟨500, false, "Updating profile failed"⟩, store, cleanupUploadedFile r.file disk1)
  else
    match findById store r.userId with
    | none => (⟨404, false, "User not found"⟩, store, disk1)
    | some _ =>
      (⟨200, true, "Profile updated successfully"⟩,
       store.map (fun v => if v.id == r.userId then applyUpdate v r.body.name newImage else v),
       disk1)

/-- How findByIdAndUpdate applies the update payload of the second
updateProfile variant: only password was deleted from the payload, so
a caller-supplied email is applied as well. -/
def applyUpdate_v2 (u : StoredUser) (name email : Option String) : StoredUser :=
  { u with
    name := name.getD u.name,
    email := email.getD u.email }

/-- Embedding of updateProfile (second variant, auth.controller.js
lines 489-515): deletes only updates.password from the payload and
does no file handling at all. -/
def updateProfile_v2 (store : List StoredUser) (r : UpdateRequest)
    (updateThrows : Bool) : Response × List StoredUser :=
  if updateThrows then
    (⟨500, false, "Updating profile failed"⟩, store)
  else
    match findById store r.userId with
    | none => (⟨404, false, "User not found"⟩, store)
    | some _ =>
      (⟨200, true, "Profile updated successfully"⟩,
       store.map (fun v =>
         if v.id == r.userId then applyUpdate_v2 v r.body.name r.body.email else v))

/-- A password-change request: the authenticated user id and the two
body fields. A missing body field arrives as the empty string, which
is falsy in the source's presence check. -/
structure ChangePasswordRequest where
  userId : Nat
  oldPassword : String
  newPassword : String

/-- Embedding of changePassword (first variant, auth.controller.js
lines 259-304): presence check, then the minimum-length check on the
new password, then the user lookup, then the old-password comparison;
on success the stored hash becomes the hash of the new password. -/
def changePassword (store : List StoredUser) (r : ChangePasswordRequest) :
    Response × List StoredUser :=
  if r.oldPassword.isEmpty || r.newPassword.isEmpty then
    (⟨400, false, "Old password and new password are required"⟩, store)
  else if r.newPassword.length < 6 then
    (⟨400, false, "New password must be at least 6 characters long"⟩, store)
  else
    match findById store r.userId with
    | none => (⟨404, false, "User not found"⟩, store)
    | some u =>
      if bcryptCompare r.oldPassword u.password then
        (⟨200, true, "Password changed successfully"⟩,
         store.map (fun v =>
           if v.id == r.userId then { v with password := bcryptHash r.newPassword } else v))
      else
        (⟨401, false, "Old password is incorrect"⟩, store)

-- ==================== QUIZ DATA MODEL (models/Quiz.js) ====================

/-- The difficulty enum of the quiz schema. -/
inductive Difficulty
  | easy
  | medium
  | hard
deriving DecidableEq

/-- An option of a quiz question, per the schema. -/
structure QuizOption where
  option : String
  isCorrect : Bool
deriving DecidableEq

/-- A quiz question, per the schema. -/
structure Question where
  question : String
  options : List QuizOption
  correctAnswer : String
  explanation : Option String
  difficulty : Difficulty
deriving DecidableEq

/-- A recorded user answer, per the schema. -/
structure UserAnswer where
  questionIndex : Nat
  selectedAnswer : String
  isCorrect : Bool
deriving DecidableEq

/-- A quiz document, per the schema (ids stand for ObjectIds,
completedAt for a timestamp). -/
structure Quiz where
  userId : Nat
  documentId : Nat
  questions : List Question
  userAnswers : List UserAnswer
  score : Nat
  totalQuestions : Nat
  answerAttempts : Nat
  completedAt : Option Nat
deriving DecidableEq

/-- Modelled from the spec: the quiz controller is not under src/. Per
the spec a quiz is created after generation from a document; the
schema defaults give score 0, no answers and no completion time. -/
def newQuiz (userId documentId : Nat) (questions : List Question) : Quiz :=
  ⟨userId, documentId, questions, [], 0, questions.length, 0, none⟩

/-- Modelled from the spec: the quiz controller is not under src/. Per
the spec a quiz is mutated as the user answers questions; an answer is
recorded by question index with the selected answer and a correctness
flag, each answer's question index must reference an existing question
(an out-of-range index records nothing), and the score counts the
correct answers recorded. -/
def submitAnswer (q : Quiz) (idx : Nat) (selected : String) : Quiz :=
  match q.questions.get? idx with
  | none => q
  | some question =>
    let correct := selected == question.correctAnswer
    { q with
      userAnswers := q.userAnswers ++ [⟨idx, selected, correct⟩],
      score := if correct then q.score + 1 else q.score,
      answerAttempts := q.answerAttempts + 1 }

/-- Modelled from the spec: the quiz controller is not under src/. Per
the spec a quiz is completed once at submission, which only stamps the
completion time. -/
def completeQuiz (q : Quiz) (t : Nat) : Quiz :=
  { q with completedAt := some t }

/-- The reachable quiz states: created empty, then mutated by answer
recording and completion. -/
inductive QuizReachable : Quiz → Prop
  | init (userId documentId : Nat) (questions : List Question) :
      QuizReachable (newQuiz userId documentId questions)
  | answer (q : Quiz) (idx : Nat) (selected : String) :
      QuizReachable q → QuizReachable (submitAnswer q idx selected)
  | complete (q : Quiz) (t : Nat) :
      QuizReachable q → QuizReachable (completeQuiz q t)

/-- A sample question used by concrete instantiations. -/
def sampleQuestion : Question :=
  ⟨"What is 2 plus 2?", [⟨"4", true⟩, ⟨"5", false⟩], "4", none, Difficulty.easy⟩

/-- A sample reachable quiz state: one question, answered correctly. -/
def sampleQuiz : Quiz :=
  submitAnswer (newQuiz 1 2 [sampleQuestion]) 0 "4"

-- ==================== SAMPLE STATES FOR CONCRETE INSTANTIATIONS ====================

/-- A sample stored user without a profile image. -/
def alice : StoredUser :=
  ⟨0, "alice", "alice@example.com", bcryptHash "Secret1!", none⟩

/-- A one-user store. -/
def aliceStore : List StoredUser := [alice]

/-- A sample stored user with a profile image on disk. -/
def aliceWithImage : StoredUser :=
  ⟨0, "alice", "alice@example.com", bcryptHash "Secret1!", some (profilePath "old.png")⟩

/-- A one-user store whose user has a profile image. -/
def aliceImageStore : List StoredUser := [aliceWithImage]

-- ==================== HELPER LEMMAS ====================

/-- Deletion only removes paths: membership after deleteFile implies
membership before. -/
theorem mem_of_mem_deleteFile {q p : String} {d : Disk}
    (h : q ∈ (deleteFile p d).2) : q ∈ d := by
  unfold deleteFile at h
  split at h
  · exact (List.mem_filter.mp h).1
  · exact h

/-- The deleted path is never in the disk returned by deleteFile. -/
theorem not_mem_deleteFile_self (p : String) (d : Disk) :
    p ∉ (deleteFile p d).2 := by
  by_cases hp : p ∈ d
  · simp [deleteFile, hp, List.mem_filter]
  · simp [deleteFile, hp]

/-- Cleanup only removes paths. -/
theorem mem_of_mem_cleanup {q : String} {file : Option String} {d : Disk}
    (h : q ∈ cleanupUploadedFile file d) : q ∈ d := by
  cases file with
  | none => exact h
  | some f => exact mem_of_mem_deleteFile h

/-- The uploaded file's path is never in the disk returned by cleanup. -/
theorem not_mem_cleanup_self (f : String) (d : Disk) :
    profilePath f ∉ cleanupUploadedFile (some f) d :=
  not_mem_deleteFile_self _ _

-- ==================== CLAIM THEOREMS: FILE INTAKE ====================

/-- C10: deleteFile applied to a path with no existing file returns
false and leaves the filesystem unchanged (the function is total, so it
never raises); consequently a second deleteFile on the same path
returns false and leaves the filesystem unchanged after the first
deletion. -/
theorem deleteFile_missing_and_idempotent (d : Disk) (p : String) :
    (p ∉ d → deleteFile p d = (false, d)) ∧
    deleteFile p (deleteFile p d).2 = (false, (deleteFile p d).2) := by
  constructor
  · intro hp
    simp [deleteFile, hp]
  · have h := not_mem_deleteFile_self p d
    generalize (deleteFile p d).2 = d1 at h ⊢
    simp [deleteFile, h]

/-- Witness for C10 at a concrete missing path. -/
theorem deleteFile_missing_and_idempotent_witness :
    ("b" : String) ∉ (["a"] : Disk) ∧ deleteFile "b" ["a"] = (false, ["a"]) :=
  ⟨by decide, (deleteFile_missing_and_idempotent ["a"] "b").1 (by decide)⟩

/-- C7: a file is accepted only when both the extension check and the
MIME check pass; resume.exe is rejected at the document endpoint
regardless of declared content type; resume.pdf with MIME
application/pdf under the 50MB cap is accepted. -/
theorem document_upload_validation :
    (∀ mt : String,
      validateFileType ⟨"resume.exe", mt⟩ ALLOWED_DOCUMENT_TYPES = false) ∧
    (∀ size : Nat, size ≤ FILE_SIZE_LIMIT_document →
      documentUploadAccepted ⟨"resume.pdf", "application/pdf"⟩ size = true) ∧
    (∀ (f : MulterFile) (t : AllowedTypes), validateFileType f t = true →
      regexTestAny t.extensions (lowerStr (extname f.originalname)) = true ∧
      t.mimeTypes.contains f.mimetype = true) := by
  refine ⟨?_, ?_, ?_⟩
  · intro mt
    have h : regexTestAny ALLOWED_DOCUMENT_TYPES.extensions
        (lowerStr (extname "resume.exe")) = false := by decide
    simp [validateFileType, h]
  · intro size hs
    have h : validateFileType ⟨"resume.pdf", "application/pdf"⟩
        ALLOWED_DOCUMENT_TYPES = true := by decide
    simp [documentUploadAccepted, h, hs]
  · intro f t h
    unfold validateFileType at h
    rw [Bool.and_eq_true] at h
    exact h

/-- Witness for C7 at a concrete size below the cap. -/
theorem document_upload_validation_witness :
    1000 ≤ FILE_SIZE_LIMIT_document ∧
    documentUploadAccepted ⟨"resume.pdf", "application/pdf"⟩ 1000 = true :=
  ⟨by decide, document_upload_validation.2.1 1000 (by decide)⟩

/-- C9: the extension check is an unanchored substring match, so a file
named resume.fakepdf, whose extension .fakepdf is not any of the
allow-listed extensions, passes validateFileType at the document
category when its declared MIME type is allow-listed. -/
theorem validateFileType_unanchored_bypass :
    validateFileType ⟨"resume.fakepdf", "application/pdf"⟩ ALLOWED_DOCUMENT_TYPES = true ∧
    extname "resume.fakepdf" = ".fakepdf" ∧
    (ALLOWED_DOCUMENT_TYPES.extensions.all
      (fun t => !(".fakepdf" == "." ++ t))) = true := by
  refine ⟨by decide, by decide, by decide⟩

-- ==================== CLAIM THEOREMS: LOGIN / REGISTER ====================

/-- Hashing is injective in the bcrypt model. -/
theorem bcryptHash_inj {a b : String} (h : bcryptHash a = bcryptHash b) : a = b := by
  unfold bcryptHash at h
  have h2 : ("bcrypt$" ++ a).data = ("bcrypt$" ++ b).data := congrArg String.data h
  simp [String.data_append] at h2
  exact String.ext h2

/-- Comparison accepts the original plaintext. -/
theorem bcryptCompare_self (p : String) : bcryptCompare p (bcryptHash p) = true := by
  simp [bcryptCompare]

/-- Comparison rejects any other plaintext. -/
theorem bcryptCompare_ne {p q : String} (h : p ≠ q) :
    bcryptCompare p (bcryptHash q) = false := by
  simp only [bcryptCompare, beq_eq_false_iff_ne, ne_eq]
  intro hEq
  exact h (bcryptHash_inj hEq.symm)

/-- C1 (amended): for the primary login controller, the failure
response for an unknown email and the failure response for a known
email with a non-matching password are identical: both are status 401,
success false, message Invalid email or password. (The second login
variant distinguishes the two cases; see the counterexample.) -/
theorem login_unknown_and_wrong_password_identical
    (store : List StoredUser) (r1 r2 : LoginRequest) (u : StoredUser)
    (h1 : findOneByEmail store r1.email = none)
    (h2 : findOneByEmail store r2.email = some u)
    (h3 : bcryptCompare r2.password u.password = false) :
    login store r1 = login store r2 ∧
    login store r1 = ⟨401, false, "Invalid email or password"⟩ := by
  simp [login, h1, h2, h3]

/-- Witness for C1 (amended) at a concrete store and requests. -/
theorem login_unknown_and_wrong_password_identical_witness :
    findOneByEmail aliceStore "bob@example.com" = none ∧
    findOneByEmail aliceStore "alice@example.com" = some alice ∧
    bcryptCompare "WrongPass" alice.password = false ∧
    login aliceStore ⟨"bob@example.com", "WrongPass"⟩ =
      login aliceStore ⟨"alice@example.com", "WrongPass"⟩ :=
  ⟨by decide, by decide, by decide,
   (login_unknown_and_wrong_password_identical aliceStore
      ⟨"bob@example.com", "WrongPass"⟩ ⟨"alice@example.com", "WrongPass"⟩ alice
      (by decide) (by decide) (by decide)).1⟩

/-- Counterexample to C1 as stated: in the second login variant the
unknown-email failure (404, User not found) and the wrong-password
failure (401, Invalid password) are distinguishable. -/
theorem login_v2_distinguishable_failures :
    findOneByEmail aliceStore "bob@example.com" = none ∧
    findOneByEmail aliceStore "alice@example.com" = some alice ∧
    bcryptCompare "WrongPass" alice.password = false ∧
    login_v2 aliceStore ⟨"bob@example.com", "WrongPass"⟩ =
      ⟨404, false, "User not found"⟩ ∧
    login_v2 aliceStore ⟨"alice@example.com", "WrongPass"⟩ =
      ⟨401, false, "Invalid password"⟩ ∧
    login_v2 aliceStore ⟨"bob@example.com", "WrongPass"⟩ ≠
      login_v2 aliceStore ⟨"alice@example.com", "WrongPass"⟩ := by
  decide

/-- C2 (amended): for the primary register controller, any failure
(duplicate email or a thrown create) on a request that carried an
accepted uploaded file deletes that file from disk before the error
response. (The second register variant never cleans up; see the
counterexample.) -/
theorem register_cleans_up_on_failure
    (store : List StoredUser) (disk : Disk) (r : RegisterRequest)
    (createThrows : Bool) (f : String)
    (hf : r.file = some f)
    (hfail : (register store disk r createThrows).1.success = false) :
    profilePath f ∉ (register store disk r createThrows).2.2 := by
  by_cases he : verifyEmail store r.email
  · simp [register, he, hf]
    exact not_mem_cleanup_self f disk
  · cases createThrows with
    | true =>
      simp [register, he, hf]
      exact not_mem_cleanup_self f disk
    | false =>
      exfalso
      simp [register, he] at hfail

/-- Witness for C2 (amended): duplicate-email failure with an accepted
file; the file is gone afterwards. -/
theorem register_cleans_up_on_failure_witness :
    (RegisterRequest.mk "bob" "alice@example.com" "Hunter2!" (some "img.png")).file =
      some "img.png" ∧
    (register aliceStore [profilePath "img.png"]
      ⟨"bob", "alice@example.com", "Hunter2!", some "img.png"⟩ false).1.success = false ∧
    profilePath "img.png" ∉
      (register aliceStore [profilePath "img.png"]
        ⟨"bob", "alice@example.com", "Hunter2!", some "img.png"⟩ false).2.2 :=
  ⟨rfl, by decide,
   register_cleans_up_on_failure aliceStore [profilePath "img.png"]
     ⟨"bob", "alice@example.com", "Hunter2!", some "img.png"⟩ false "img.png"
     rfl (by decide)⟩

/-- Counterexample to C2 as stated: the second register variant fails
on a duplicate email while the accepted file stays on disk. -/
theorem register_v2_leaves_file_on_failure :
    (register_v2 aliceStore [profilePath "img.png"]
      ⟨"bob", "alice@example.com", "Hunter2!", some "img.png"⟩ false).1.success = false ∧
    profilePath "img.png" ∈
      (register_v2 aliceStore [profilePath "img.png"]
        ⟨"bob", "alice@example.com", "Hunter2!", some "img.png"⟩ false).2.2 := by
  decide

-- ==================== CLAIM THEOREMS: PROFILE UPDATE ====================

/-- C3 (amended): when a replacement image is carried, the previous
image of an existing user is deleted from disk after the new image was
accepted but before the database write, so it is gone in every outcome
of the update, including failing ones; with no replacement image the
disk is untouched. -/
theorem updateProfile_old_image_deleted_before_write
    (store : List StoredUser) (disk : Disk) (r : UpdateRequest) (updateThrows : Bool) :
    (∀ (u : StoredUser) (old f : String),
      findById store r.userId = some u → u.profileImage = some old → r.file = some f →
      old ∉ (updateProfile store disk r updateThrows).2.2) ∧
    (r.file = none → (updateProfile store disk r updateThrows).2.2 = disk) := by
  constructor
  · intro u old f hu hold hf
    cases updateThrows with
    | false =>
      simp [updateProfile, hf, hu, hold]
      exact not_mem_deleteFile_self old disk
    | true =>
      simp [updateProfile, hf, hu, hold]
      intro hmem
      exact not_mem_deleteFile_self old disk (mem_of_mem_cleanup hmem)
  · intro hnone
    cases updateThrows with
    | false =>
      cases hfind : findById store r.userId with
      | none => simp [updateProfile, hnone, hfind]
      | some u => simp [updateProfile, hnone, hfind]
    | true => simp [updateProfile, hnone, cleanupUploadedFile]

/-- Witness for C3 (amended) at a concrete state: a successful update
with a replacement image removes the old image. -/
theorem updateProfile_old_image_deleted_before_write_witness :
    findById aliceImageStore 0 = some aliceWithImage ∧
    aliceWithImage.profileImage = some (profilePath "old.png") ∧
    profilePath "old.png" ∉
      (updateProfile aliceImageStore [profilePath "old.png", profilePath "new.png"]
        ⟨0, ⟨none, none, none⟩, some "new.png"⟩ false).2.2 :=
  ⟨by decide, by decide,
   (updateProfile_old_image_deleted_before_write aliceImageStore
      [profilePath "old.png", profilePath "new.png"]
      ⟨0, ⟨none, none, none⟩, some "new.png"⟩ false).1
     aliceWithImage (profilePath "old.png") "new.png" (by decide) (by decide) rfl⟩

/-- Counterexample to C3 as stated: an update that fails after the new
image was accepted (the database write throws) returns the failure
envelope while the old image is already gone from disk, so the old
image does not remain on a failing update. -/
theorem updateProfile_failing_update_old_image_gone :
    (updateProfile aliceImageStore [profilePath "old.png", profilePath "new.png"]
      ⟨0, ⟨none, none, none⟩, some "new.png"⟩ true).1 =
      ⟨500, false, "Updating profile failed"⟩ ∧
    profilePath "old.png" ∉
      (updateProfile aliceImageStore [profilePath "old.png", profilePath "new.png"]
        ⟨0, ⟨none, none, none⟩, some "new.png"⟩ true).2.2 := by
  decide

/-- Map projection helper: mapping a user transformation that preserves
a projection leaves the projected list unchanged. -/
theorem map_proj_of_pointwise {β : Type} (store : List StoredUser)
    (g : StoredUser → StoredUser) (p : StoredUser → β)
    (h : ∀ u, p (g u) = p u) :
    (store.map g).map p = store.map p := by
  rw [List.map_map]
  have hfg : p ∘ g = p := funext h
  rw [hfg]

/-- C4 (amended): the primary updateProfile strips both password and
email from the payload, so every user's email and password hash are
unchanged by any update through it; the second variant strips only
password, so passwords are unchanged there while a caller-supplied
email is applied (see the counterexample). -/
theorem updateProfile_strips_sensitive_fields
    (store : List StoredUser) (disk : Disk) (r : UpdateRequest) (updateThrows : Bool) :
    (updateProfile store disk r updateThrows).2.1.map (fun u => (u.email, u.password)) =
      store.map (fun u => (u.email, u.password)) ∧
    (updateProfile_v2 store r updateThrows).2.map (fun u => u.password) =
      store.map (fun u => u.password) := by
  constructor
  · cases updateThrows with
    | true => simp [updateProfile]
    | false =>
      cases hfind : findById store r.userId with
      | none => simp [updateProfile, hfind]
      | some u =>
        simp only [updateProfile, hfind]
        apply map_proj_of_pointwise
        intro v
        by_cases hid : (v.id == r.userId) = true
        · simp [hid, applyUpdate]
        · simp [hid]
  · cases updateThrows with
    | true => simp [updateProfile_v2]
    | false =>
      cases hfind : findById store r.userId with
      | none => simp [updateProfile_v2, hfind]
      | some u =>
        simp only [updateProfile_v2, hfind]
        apply map_proj_of_pointwise
        intro v
        by_cases hid : (v.id == r.userId) = true
        · simp [hid, applyUpdate_v2]
        · simp [hid]

/-- Counterexample to C4 as stated: the second updateProfile variant
passes a caller-supplied email through to the database write, changing
the stored email. -/
theorem updateProfile_v2_changes_email :
    (updateProfile_v2 aliceStore
      ⟨0, ⟨none, some "evil@example.com", none⟩, none⟩ false).2.map (fun u => u.email) =
      ["evil@example.com"] ∧
    aliceStore.map (fun u => u.email) = ["alice@example.com"] ∧
    ("evil@example.com" : String) ≠ "alice@example.com" := by
  decide

-- ==================== CLAIM THEOREMS: DUPLICATE REGISTRATION ====================

/-- C5: when the first of two registrations with the same email
succeeds against a store with no user under that email, the second
fails with the duplicate-email error before any write (the store is
returned unchanged), and exactly one user record with that email
exists afterwards. -/
theorem register_duplicate_email_second_fails
    (store : List StoredUser) (d1 d2 : Disk) (r1 r2 : RegisterRequest) (t2 : Bool)
    (hemail : r2.email = r1.email)
    (hnew : verifyEmail store r1.email = false) :
    (register store d1 r1 false).1.success = true ∧
    (register (register store d1 r1 false).2.1 d2 r2 t2).1 =
      ⟨400, false, "Email already registered"⟩ ∧
    (register (register store d1 r1 false).2.1 d2 r2 t2).2.1 =
      (register store d1 r1 false).2.1 ∧
    ((register (register store d1 r1 false).2.1 d2 r2 t2).2.1.filter
      (fun u => u.email == r1.email)).length = 1 := by
  have p1 : register store d1 r1 false =
      (⟨201, true, "User registered successfully"⟩,
       store ++ [⟨store.length, r1.name, r1.email, bcryptHash r1.password,
                  r1.file.map profilePath⟩],
       d1) := by
    simp [register, hnew]
  rw [p1]
  have hdup : verifyEmail
      (store ++ [⟨store.length, r1.name, r1.email, bcryptHash r1.password,
                  r1.file.map profilePath⟩]) r2.email = true := by
    simp [verifyEmail, List.any_append, hemail]
  have p2 : ∀ (s2 : List StoredUser), verifyEmail s2 r2.email = true →
      register s2 d2 r2 t2 =
        (⟨400, false, "Email already registered"⟩, s2, cleanupUploadedFile r2.file d2) := by
    intro s2 h2
    simp [register, h2]
  rw [p2 _ hdup]
  have hfilter : store.filter (fun u => u.email == r1.email) = [] := by
    rw [List.filter_eq_nil_iff]
    intro a ha
    rw [verifyEmail, List.any_eq_false] at hnew
    exact hnew a ha
  refine ⟨rfl, rfl, rfl, ?_⟩
  simp [List.filter_append, hfilter]

/-- Witness for C5 at a concrete pair of registrations. -/
theorem register_duplicate_email_second_fails_witness :
    verifyEmail [] "alice@example.com" = false ∧
    (register (register [] [] ⟨"alice", "alice@example.com", "Secret1!", none⟩ false).2.1
      [] ⟨"bob", "alice@example.com", "Hunter2!", none⟩ false).1 =
      ⟨400, false, "Email already registered"⟩ :=
  ⟨by decide,
   (register_duplicate_email_second_fails [] [] []
      ⟨"alice", "alice@example.com", "Secret1!", none⟩
      ⟨"bob", "alice@example.com", "Hunter2!", none⟩ false rfl (by decide)).2.1⟩

-- ==================== CLAIM THEOREMS: PASSWORD CHANGE ====================

/-- The presence check of changePassword passes on two nonempty
strings. -/
theorem nonempty_cond_false {a b : String} (h : a ≠ "") (h2 : b ≠ "") :
    (a.isEmpty || b.isEmpty) = false := by
  have ha : a.isEmpty = false := by
    rw [Bool.eq_false_iff]; intro he; exact h ((String.isEmpty_iff a).mp he)
  have hb : b.isEmpty = false := by
    rw [Bool.eq_false_iff]; intro he; exact h2 ((String.isEmpty_iff b).mp he)
  rw [ha, hb]
  rfl

/-- Lookup by email through a map that preserves emails finds the image
of the user found before the map. -/
theorem findOneByEmail_map (store : List StoredUser) (g : StoredUser → StoredUser)
    (h : ∀ u, (g u).email = u.email) (e : String) :
    findOneByEmail (store.map g) e = (findOneByEmail store e).map g := by
  induction store with
  | nil => rfl
  | cons u us ih =>
    simp only [findOneByEmail, List.map_cons, List.find?] at *
    rw [h u]
    cases hu : (u.email == e) with
    | true => simp
    | false => simpa using ih

/-- Login against a store whose matching user had its password hash
replaced: the outcome is decided by comparing the supplied password
with the new hash. -/
theorem login_after_password_map (store : List StoredUser) (uid : Nat)
    (newPw pw : String) (u : StoredUser)
    (hfe : findOneByEmail store u.email = some u)
    (hidu : (u.id == uid) = true) :
    login (store.map (fun v =>
        if v.id == uid then { v with password := bcryptHash newPw } else v))
      ⟨u.email, pw⟩ =
      if bcryptCompare pw (bcryptHash newPw) then
        ⟨200, true, "User logged in successfully"⟩
      else
        ⟨401, false, "Invalid email or password"⟩ := by
  have hfm := findOneByEmail_map store
    (fun v => if v.id == uid then { v with password := bcryptHash newPw } else v)
    (by
      intro v
      by_cases hv : (v.id == uid) = true
      · simp [hv]
      · simp [hv])
    u.email
  unfold login
  rw [hfm, hfe]
  have hid2 : u.id = uid := by simpa using hidu
  simp [hid2]

/-- C6 (amended): changePassword rejects a new password shorter than 6
characters with a 400 validation failure (this check runs before the
credential check); when the new password passes validation, a
non-matching old password yields the invalid-credentials failure; when
the old password matches and the new password passes validation, the
change succeeds, after which login with the new password succeeds and,
provided the new password differs from the old, login with the old
password fails. -/
theorem changePassword_policy_and_rotation
    (store : List StoredUser) (r : ChangePasswordRequest) (u : StoredUser) :
    (r.newPassword.length < 6 →
      (changePassword store r).1.status = 400 ∧
      (changePassword store r).1.success = false) ∧
    (r.oldPassword ≠ "" → 6 ≤ r.newPassword.length →
      findById store r.userId = some u →
      bcryptCompare r.oldPassword u.password = false →
      (changePassword store r).1 = ⟨401, false, "Old password is incorrect"⟩) ∧
    (r.oldPassword ≠ "" → 6 ≤ r.newPassword.length →
      findById store r.userId = some u →
      bcryptCompare r.oldPassword u.password = true →
      findOneByEmail store u.email = some u →
      (changePassword store r).1 = ⟨200, true, "Password changed successfully"⟩ ∧
      login (changePassword store r).2 ⟨u.email, r.newPassword⟩ =
        ⟨200, true, "User logged in successfully"⟩ ∧
      (r.oldPassword ≠ r.newPassword →
        login (changePassword store r).2 ⟨u.email, r.oldPassword⟩ =
          ⟨401, false, "Invalid email or password"⟩)) := by
  refine ⟨?_, ?_, ?_⟩
  · intro hlen
    by_cases hc : (r.oldPassword.isEmpty || r.newPassword.isEmpty) = true
    · simp [changePassword, hc]
    · have hc2 : (r.oldPassword.isEmpty || r.newPassword.isEmpty) = false := by
        rw [Bool.eq_false_iff]; exact hc
      simp [changePassword, hc2, hlen]
  · intro hold hlen hfind hcmp
    have hne2 : r.newPassword ≠ "" := by
      intro h0; rw [h0] at hlen; exact absurd hlen (by decide)
    have hc := nonempty_cond_false hold hne2
    have hlt : ¬ (r.newPassword.length < 6) := Nat.not_lt.mpr hlen
    simp [changePassword, hc, hlt, hfind, hcmp]
  · intro hold hlen hfind hcmp hfe
    have hne2 : r.newPassword ≠ "" := by
      intro h0; rw [h0] at hlen; exact absurd hlen (by decide)
    have hc := nonempty_cond_false hold hne2
    have hlt : ¬ (r.newPassword.length < 6) := Nat.not_lt.mpr hlen
    have hidu : (u.id == r.userId) = true := by
      have h2 : List.find? (fun v => v.id == r.userId) store = some u := hfind
      have h3 := List.find?_some h2
      exact h3
    have hcp : changePassword store r =
        (⟨200, true, "Password changed successfully"⟩,
         store.map (fun v =>
           if v.id == r.userId then { v with password := bcryptHash r.newPassword }
           else v)) := by
      simp [changePassword, hc, hlt, hfind, hcmp]
    refine ⟨?_, ?_, ?_⟩
    · rw [hcp]
    · rw [hcp]
      rw [login_after_password_map store r.userId r.newPassword r.newPassword u hfe hidu]
      simp [bcryptCompare_self]
    · intro hnepw
      rw [hcp]
      rw [login_after_password_map store r.userId r.newPassword r.oldPassword u hfe hidu]
      simp [bcryptCompare_ne hnepw]

/-- Witness for C6 (amended): a concrete successful change after which
login with the new password succeeds. -/
theorem changePassword_policy_and_rotation_witness :
    bcryptCompare "Secret1!" alice.password = true ∧
    (changePassword aliceStore ⟨0, "Secret1!", "NewSecret2!"⟩).1 =
      ⟨200, true, "Password changed successfully"⟩ ∧
    login (changePassword aliceStore ⟨0, "Secret1!", "NewSecret2!"⟩).2
      ⟨"alice@example.com", "NewSecret2!"⟩ = ⟨200, true, "User logged in successfully"⟩ :=
  ⟨by decide,
   ((changePassword_policy_and_rotation aliceStore ⟨0, "Secret1!", "NewSecret2!"⟩ alice).2.2
     (by decide) (by decide) (by decide) (by decide) (by decide)).1,
   ((changePassword_policy_and_rotation aliceStore ⟨0, "Secret1!", "NewSecret2!"⟩ alice).2.2
     (by decide) (by decide) (by decide) (by decide) (by decide)).2.1⟩

/-- Counterexample to C6 as stated: a request whose old password does
not match and whose new password has length 5 fails with the length
validation message, not with the invalid-credentials error, because
the length check runs first. -/
theorem changePassword_short_new_masks_wrong_old :
    bcryptCompare "WrongOld" alice.password = false ∧
    (changePassword aliceStore ⟨0, "WrongOld", "abc12"⟩).1 =
      ⟨400, false, "New password must be at least 6 characters long"⟩ ∧
    (changePassword aliceStore ⟨0, "WrongOld", "abc12"⟩).1.status ≠ 401 := by
  decide

-- ==================== CLAIM THEOREMS: QUIZ INVARIANT ====================

/-- C8: in every reachable quiz state the recorded score equals the
number of user answers whose isCorrect flag is true, and every
answer's questionIndex references an existing question. -/
theorem quiz_score_and_index_invariant (q : Quiz) (h : QuizReachable q) :
    q.score = (q.userAnswers.filter (fun a => a.isCorrect)).length ∧
    ∀ a ∈ q.userAnswers, a.questionIndex < q.questions.length := by
  induction h with
  | init userId documentId questions => simp [newQuiz]
  | answer q idx selected hq ih =>
    obtain ⟨ih1, ih2⟩ := ih
    cases hget : q.questions[idx]? with
    | none =>
      constructor
      · simpa [submitAnswer, hget] using ih1
      · simpa [submitAnswer, hget] using ih2
    | some question =>
      have hget2 : q.questions.get? idx = some question := by
        rw [List.get?_eq_getElem?]
        exact hget
      have hlt : idx < q.questions.length := by
        obtain ⟨hl, _⟩ := List.get?_eq_some.mp hget2
        exact hl
      constructor
      · cases hc : (selected == question.correctAnswer) with
        | true =>
          simp [submitAnswer, hget, hc, List.filter_append, List.length_append, ih1]
        | false =>
          simp [submitAnswer, hget, hc, List.filter_append, List.length_append, ih1]
      · intro a ha
        simp only [submitAnswer, List.get?_eq_getElem?, hget] at ha ⊢
        rw [List.mem_append] at ha
        cases ha with
        | inl ha => exact ih2 a ha
        | inr ha =>
          rw [List.mem_singleton] at ha
          rw [ha]
          exact hlt
  | complete q t hq ih =>
    obtain ⟨ih1, ih2⟩ := ih
    exact ⟨ih1, ih2⟩

/-- Witness for C8 at a concrete reachable quiz. -/
theorem quiz_score_and_index_invariant_witness :
    QuizReachable sampleQuiz ∧
    sampleQuiz.score = (sampleQuiz.userAnswers.filter (fun a => a.isCorrect)).length :=
  have hr : QuizReachable sampleQuiz :=
    QuizReachable.answer (newQuiz 1 2 [sampleQuestion]) 0 "4"
      (QuizReachable.init 1 2 [sampleQuestion])
  ⟨hr, (quiz_score_and_index_invariant sampleQuiz hr).1⟩
